import Mathlib

/-!
Verification of the agentic chat backend: the decision parser, snippet
truncation, the web-search client, the retry wrapper, and the chat
event stream of the pipeline, shallowly embedded from the TypeScript source
(`routes/chat.ts`, `services/webSearch.ts`, `services/llmGemini.ts`).
Strings are modelled by Lean `String`/`List Char`; JavaScript truthiness
on strings (`undefined`/`""` are falsy) is modelled explicitly.
-/

namespace AgenticChat

/-- Whitespace test modelling the JavaScript whitespace class (`\s`,
`trim()`), restricted to its ASCII part. -/
def isWsChar (c : Char) : Bool :=
  c = ' ' || c = '\t' || c = '\n' || c = '\r' || c = '\x0b' || c = '\x0c'

/-- JavaScript `String.prototype.trim()`: drop leading and trailing
whitespace. -/
def jsTrim (s : String) : String :=
  String.mk (((s.data.dropWhile isWsChar).reverse.dropWhile isWsChar).reverse)

/-- JavaScript `String.prototype.toLowerCase()` (ASCII case mapping). -/
def jsToLower (s : String) : String :=
  String.mk (s.data.map Char.toLower)

/-- JavaScript `a || b` on an optional string: `undefined` and `""` are
falsy. -/
def jsOrOS (a : Option String) (b : String) : String :=
  match a with
  | some s => if s = "" then b else s
  | none => b

/-- From `routes/chat.ts`, `parseDecision`: the normalized
(`trim().toLowerCase()`) raw response equals `"true"` or includes
`"yes"`. -/
def parseDecision (raw : String) : Bool :=
  let norm := jsToLower (jsTrim raw)
  norm == "true" || decide ("yes".data <:+: norm.data)

/-- From `services/webSearch.ts`: the effect of
`text.replace(/\s+\S*$/, "")` on a character list. When the text contains
whitespace, the leftmost match of the regex is the last whitespace run together
with the trailing partial word, and the match is removed; when the text
contains no whitespace the regex does not match and the text is
unchanged. -/
def dropLastPartialWord (l : List Char) : List Char :=
  if l.any isWsChar then
    ((l.reverse.dropWhile (fun c => !isWsChar c)).dropWhile isWsChar).reverse
  else l

/-- The ellipsis marker appended by `truncateSnippet`. -/
def ellipsis : List Char := ['.', '.', '.']

/-- From `services/webSearch.ts`, `truncateSnippet(text, maxChars)`:
`if (text.length <= maxChars) return text;
 return text.slice(0, maxChars).replace(/\s+\S*$/, "") + "...";` -/
def truncateSnippet (text : List Char) (maxChars : Nat) : List Char :=
  if text.length ≤ maxChars then text
  else dropLastPartialWord (text.take maxChars) ++ ellipsis

/-- The String packaging of `truncateSnippet`. -/
def truncateSnippetS (s : String) (maxChars : Nat) : String :=
  String.mk (truncateSnippet s.data maxChars)

/-- Character that terminates the host part of an absolute URL
(path, query, fragment, or port separator). -/
def hostEnd (c : Char) : Bool :=
  c = '/' || c = '?' || c = '#' || c = ':'

/-- Remove the first occurrence of `pat` from a list, modelling
JavaScript `String.prototype.replace` with a plain-string pattern and an
empty replacement. -/
def removeFirstOccur (pat : List Char) : List Char → List Char
  | [] => []
  | c :: rest =>
    if pat <+: (c :: rest) then (c :: rest).drop pat.length
    else c :: removeFirstOccur pat rest

/-- From `services/webSearch.ts`, `extractDomain`:
`new URL(url).hostname.replace("www.", "")`, `null` when `new URL`
throws. The WHATWG URL parser is modelled for absolute `http`/`https`
URLs: the hostname is the lowercased text between the scheme and the
first `/`, `?`, `#`, or `:`; other inputs are treated as parse failures
(yielding `null`). -/
def extractDomain (url : String) : Option String :=
  let l := url.data
  let rest : Option (List Char) :=
    if "http://".data <+: l then some (l.drop 7)
    else if "https://".data <+: l then some (l.drop 8)
    else none
  match rest with
  | none => none
  | some r =>
    let host := (r.takeWhile (fun c => !hostEnd c)).map Char.toLower
    if host = [] then none
    else some (String.mk (removeFirstOccur "www.".data host))

/-- One search result, from the `SearchResult` interface in
`services/webSearch.ts`. -/
structure SearchResult where
  title : String
  link : String
  snippet : String
  date : Option String
  source : String
deriving DecidableEq, Repr

/-- The `SearchResponse` interface in `services/webSearch.ts`. -/
structure SearchResponse where
  results : List SearchResult
  totalResults : Nat
  query : String
  summary : Option String
deriving DecidableEq, Repr

/-- One raw provider result (`organic_results` entry): every field may be
absent. -/
structure RawResult where
  title : Option String
  link : Option String
  snippet : Option String
  date : Option String
  source : Option String
deriving DecidableEq, Repr

/-- The provider response body: `organic_results` and
`search_information.total_results`, each possibly absent. -/
structure ProviderResponse where
  organic_results : Option (List RawResult)
  total_results : Option Nat
deriving DecidableEq, Repr

/-- An axios error as inspected by the search client:
`err.response?.data?.error` and `err.message`. -/
structure HttpError where
  responseError : Option String
  message : String
deriving DecidableEq, Repr

/-- Digit grouping for `Number.prototype.toLocaleString()`: insert a
comma after every three digits, working from the least significant end
(the input list is the reversed digit string). -/
def group3 : List Char → List Char
  | a :: b :: c :: d :: rest => a :: b :: c :: ',' :: group3 (d :: rest)
  | l => l

/-- JavaScript `Number.prototype.toLocaleString()` for a natural number in the
default `en-US` style: decimal digits with thousands separators. -/
def toLocaleString (n : Nat) : String :=
  String.mk ((group3 (Nat.repr n).data.reverse).reverse)

/-- The hardcoded mock fixture returned by `webSearch` when
`WEB_SEARCH_MODE` is `"mock"`. -/
def mockResults : List SearchResult :=
  [{ title := "State of AI Report 2025",
     link := "https://www.stateof.ai/",
     snippet := "The most trusted annual analysis of AI trends. Agentic AI, cost drops, and new regulations dominate 2025.",
     date := some "2025-10-15",
     source := "State of AI Institute" },
   { title := "Stanford AI Index 2025",
     link := "https://hai.stanford.edu/ai-index",
     snippet := "AI boosts productivity by 40%. Inference costs down 280x since 2023. 1.2M AI jobs created.",
     date := some "2025-04-10",
     source := "Stanford HAI" },
   { title := "Gemini 2.5 Flash Released",
     link := "https://blog.google/technology/ai/gemini-2-5-flash/",
     snippet := "Google\x27s fastest model yet. 128K context, $0.35/M tokens. Free tier: 15 RPM.",
     date := some "2025-06-20",
     source := "Google AI Blog" }]

/-- From `services/webSearch.ts`: mapping one provider result into the
normalized `SearchResult` shape:
`title: r.title || "Untitled", link: r.link || "#",
 snippet: truncateSnippet(r.snippet || "", 300), date: r.date || undefined,
 source: extractDomain(r.link) || r.source || "Unknown"`. -/
def mapRawResult (r : RawResult) : SearchResult :=
  { title := jsOrOS r.title "Untitled"
    link := jsOrOS r.link "#"
    snippet := truncateSnippetS (jsOrOS r.snippet "") 300
    date := r.date.bind (fun s => if s = "" then none else some s)
    source :=
      jsOrOS (match r.link with
              | none => none
              | some l => extractDomain l)
        (jsOrOS r.source "Unknown") }

/-- From `services/webSearch.ts`, the `try` branch of `webSearch` on a
successful provider response: read `organic_results` (default `[]`) and
`search_information.total_results` (default `0`), map the first 10 raw
results through the normalizer, and synthesize the summary naming the
total and the sources of the first three results. -/
def webSearchSuccess (resp : ProviderResponse) (query : String) : SearchResponse :=
  let organic := resp.organic_results.getD []
  let total := resp.total_results.getD 0
  let results := (organic.take 10).map mapRawResult
  let summary :=
    if results.length > 0 then
      "Found " ++ toLocaleString total ++ " results. Top sources: " ++
        String.intercalate ", " ((results.take 3).map (fun r => r.source)) ++ "."
    else "No results found."
  { query := query, totalResults := total, results := results,
    summary := some summary }

/-- From `services/webSearch.ts`, the `catch` branch of `webSearch`: an
empty response whose summary carries
`err.response?.data?.error || err.message`. -/
def webSearchFailure (err : HttpError) (query : String) : SearchResponse :=
  { query := query, totalResults := 0, results := [],
    summary := some ("Search failed: " ++ jsOrOS err.responseError err.message) }

/-- From `services/webSearch.ts`, `webSearch(query)`. The configuration
(`WEB_SEARCH_MODE`, `SEARCH_API_KEY`) and the outcome of the single
provider HTTP request are passed explicitly; the function itself always
returns a `SearchResponse` (every failure is handled internally, as in
the catch branch of the source). -/
def webSearch (mode : String) (apiKey : Option String)
    (provider : Except HttpError ProviderResponse) (query : String) :
    SearchResponse :=
  if mode = "mock" then
    { query := query, totalResults := 3, results := mockResults, summary := none }
  else if apiKey = none ∨ apiKey = some "" then
    { query := query, totalResults := 0, results := [],
      summary := some "Search API key missing." }
  else
    match provider with
    | Except.ok resp => webSearchSuccess resp query
    | Except.error err => webSearchFailure err query

/-- Accumulator pass keeping the first occurrence of each string. -/
def distinctAux : List String → List String → List String
  | [], acc => acc.reverse
  | s :: rest, acc =>
    if s ∈ acc then distinctAux rest acc else distinctAux rest (s :: acc)

/-- First occurrences, in order, of the strings of a list. -/
def distinctFirst (l : List String) : List String := distinctAux l []

/-- Modelled from the spec wording of the summary rule: a summary
"naming the total result count and the first three distinct sources",
with the same surrounding text as the code. Used to compare the claimed
behaviour with the implemented one. -/
def summaryDistinctSpec (total : Nat) (results : List SearchResult) : String :=
  "Found " ++ toLocaleString total ++ " results. Top sources: " ++
    String.intercalate ", " ((distinctFirst (results.map (fun r => r.source))).take 3) ++ "."

/-- An error as inspected by `withRetry` in `services/llmGemini.ts`:
`err.response?.status` and `err.code`. -/
structure RetryErr where
  status : Option Nat
  code : Option String
deriving DecidableEq, Repr

/-- The transience test of `withRetry`:
`err.response?.status >= 500 || err.code === "ECONNABORTED"`. -/
def isTransient (e : RetryErr) : Bool :=
  (match e.status with
   | some s => decide (500 ≤ s)
   | none => false) || e.code == some "ECONNABORTED"

/-- The loop of `withRetry`: attempt `i`, remaining `fuel` attempts,
last error seen, backoff delays accumulated so far (reversed), and the
number of invocations of the operation so far. Returns the outcome, the
delays slept (in order), and the number of invocations. -/
def withRetryGo {α : Type} (fn : Nat → Except RetryErr α) :
    Nat → Nat → Option RetryErr → List Nat → Nat →
    Except (Option RetryErr) α × List Nat × Nat
  | 0, _, lastErr, delays, calls => (Except.error lastErr, delays.reverse, calls)
  | fuel + 1, i, _, delays, calls =>
    match fn i with
    | Except.ok v => (Except.ok v, delays.reverse, calls + 1)
    | Except.error e =>
      if isTransient e then
        withRetryGo fn fuel (i + 1) (some e) (1000 * 2 ^ i :: delays) (calls + 1)
      else (Except.error (some e), delays.reverse, calls + 1)

/-- From `services/llmGemini.ts`, `withRetry(fn, retries)`: run `fn` up
to `retries` times; a transient failure sleeps `1000 * 2 ** i` ms and
retries, any other failure is rethrown at once, and exhaustion rethrows
the last error. The attempt outcomes are passed as a function of the
attempt index (the result of the invocation numbered by the index). -/
def withRetry {α : Type} (fn : Nat → Except RetryErr α) (retries : Nat) :
    Except (Option RetryErr) α × List Nat × Nat :=
  withRetryGo fn retries 0 none [] 0

/-- The discriminated stream events of `routes/chat.ts`. -/
inductive StreamEvent where
  | reasoning (content : String)
  | tool_call (tool : String) (input : String) (output : SearchResponse)
  | response (content : String)
  | error (content : String)
  | done
deriving DecidableEq, Repr

/-- Is an event a `tool_call` event? -/
def isToolCallEv : StreamEvent → Bool
  | StreamEvent.tool_call _ _ _ => true
  | _ => false

/-- Number of `tool_call` events in a stream. -/
def countToolCalls (evs : List StreamEvent) : Nat :=
  (evs.filter isToolCallEv).length

/-- The `query` field of the request body: absent, present but not a
string, or a string. -/
inductive BodyQuery where
  | missing
  | nonString
  | str (s : String)
deriving DecidableEq, Repr

/-- Observable outcome of one request to the chat route: the events
written to the stream in order, the explicit HTTP status set (if any),
how many times the response was ended, and how many times each external
client was invoked. -/
structure ChatResult where
  events : List StreamEvent
  status : Option Nat
  ended : Nat
  geminiCalls : Nat
  searchCalls : Nat
deriving DecidableEq, Repr

/-- The validation-rejection outcome of `routes/chat.ts`: one `error`
event, status 400, stream ended, no external call. -/
def validationFailure : ChatResult :=
  { events := [StreamEvent.error "Valid \x27query\x27 string required"],
    status := some 400, ended := 1, geminiCalls := 0, searchCalls := 0 }

/-- From `routes/chat.ts`, the `POST /chat` handler. External behaviour
is passed explicitly: `gemini n` is the outcome of the `n`-th
`callGemini` invocation (`Except.error` models a rejected promise with
the given `err.message`), `search` is the `webSearch` collaborator
(which never rejects), and `duration` is the measured elapsed time. The
result records the streamed events, the status, the single `res.end()`
of each exit path, and the number of collaborator invocations. -/
def handleChat (body : BodyQuery) (gemini : Nat → Except String String)
    (search : String → SearchResponse) (duration : Nat) : ChatResult :=
  match body with
  | BodyQuery.missing => validationFailure
  | BodyQuery.nonString => validationFailure
  | BodyQuery.str q =>
    if jsTrim q = "" then validationFailure
    else
      match gemini 0 with
      | Except.error msg =>
        { events := [StreamEvent.reasoning ("Received: \"" ++ jsTrim q ++ "\""),
                     StreamEvent.reasoning "Deciding if tool needed...",
                     StreamEvent.error ("Agent error: " ++ msg)],
          status := none, ended := 1, geminiCalls := 1, searchCalls := 0 }
      | Except.ok decisionRaw =>
        let needSearch := parseDecision decisionRaw
        let decEv := StreamEvent.reasoning
          (if needSearch then "Tool call required for fresh data."
           else "Internal knowledge sufficient.")
        let searchEvs :=
          if needSearch then
            [StreamEvent.reasoning "Searching the web…",
             StreamEvent.tool_call "web_search" (jsTrim q) (search (jsTrim q))]
          else []
        let sCalls := if needSearch then 1 else 0
        match gemini 1 with
        | Except.error msg =>
          { events := [StreamEvent.reasoning ("Received: \"" ++ jsTrim q ++ "\""),
                       StreamEvent.reasoning "Deciding if tool needed...",
                       decEv] ++ searchEvs ++
                      [StreamEvent.reasoning "Refining answer...",
                       StreamEvent.error ("Agent error: " ++ msg)],
            status := none, ended := 1, geminiCalls := 2, searchCalls := sCalls }
        | Except.ok answer =>
          { events := [StreamEvent.reasoning ("Received: \"" ++ jsTrim q ++ "\""),
                       StreamEvent.reasoning "Deciding if tool needed...",
                       decEv] ++ searchEvs ++
                      [StreamEvent.reasoning "Refining answer...",
                       StreamEvent.response
                         (if answer = "" then "(no answer generated)" else answer),
                       StreamEvent.reasoning
                         ("Completed in " ++ toString duration ++ "ms"),
                       StreamEvent.done],
            status := none, ended := 1, geminiCalls := 2, searchCalls := sCalls }

/-- Modelled from the spec wording of end-to-end scenario A: the event
sequence is exactly six events,
`reasoning, reasoning, reasoning, response, reasoning, done`
(acknowledgement, decision outcome, refining, answer, timing, done). -/
def scenarioAClaimShape : List StreamEvent → Bool
  | [StreamEvent.reasoning _, StreamEvent.reasoning _, StreamEvent.reasoning _,
     StreamEvent.response _, StreamEvent.reasoning _, StreamEvent.done] => true
  | _ => false

/-- Concrete operation for exercising the retry wrapper: one transient
503 failure, then success. -/
def retryWitnessFn : Nat → Except RetryErr Nat :=
  fun j => if j = 0 then Except.error { status := some 503, code := none } else Except.ok 7

/-- Concrete raw provider result on the domain `a.com`. -/
def rawA1 : RawResult :=
  { title := some "R1", link := some "https://a.com/1", snippet := some "s1",
    date := none, source := none }

/-- Second concrete raw provider result on the same domain `a.com`. -/
def rawA2 : RawResult :=
  { title := some "R2", link := some "https://a.com/2", snippet := some "s2",
    date := none, source := none }

/-- Concrete raw provider result on the domain `b.com`. -/
def rawB : RawResult :=
  { title := some "R3", link := some "https://b.com/x", snippet := some "s3",
    date := none, source := none }

/-- A provider response whose first two results share a source domain. -/
def providerDup : ProviderResponse :=
  { organic_results := some [rawA1, rawA2, rawB], total_results := some 3 }

/-- A completion oracle answering `"false"` to the decision prompt and a
plain answer to the final prompt. -/
def geminiScenarioA : Nat → Except String String :=
  fun n => if n = 0 then Except.ok "false" else Except.ok "2 + 2 = 4."

/-- A completion oracle answering `"true"` to the decision prompt. -/
def geminiScenarioTrue : Nat → Except String String :=
  fun n => if n = 0 then Except.ok "true" else Except.ok "answer [1]"

/-- A fixed search collaborator for concrete runs: mock-mode search. -/
def mockSearch : String → SearchResponse :=
  fun q => webSearch "mock" none (Except.error { responseError := none, message := "" }) q

/-- If `dropWhile p` is nonempty, it starts with an element refuting `p`. -/
lemma dropWhile_ne_nil_head {p : Char → Bool} :
    ∀ {l : List Char}, l.dropWhile p ≠ [] →
      ∃ h t, l.dropWhile p = h :: t ∧ p h = false := by
  intro l
  induction l with
  | nil => intro hne; simp at hne
  | cons a l ih =>
    intro hne
    by_cases hpa : p a
    · rw [List.dropWhile_cons_of_pos hpa] at hne ⊢
      exact ih hne
    · rw [List.dropWhile_cons_of_neg hpa] at hne ⊢
      exact ⟨a, l, rfl, by simpa using hpa⟩

/-- Without whitespace the regex `\s+\S*$` does not match and the text is
kept. -/
lemma dropLastPartialWord_eq_self {l : List Char} (h : l.any isWsChar = false) :
    dropLastPartialWord l = l := by
  simp [dropLastPartialWord, h]

/-- With whitespace present, the text splits as kept prefix, a nonempty
whitespace run, and a whitespace-free tail: the removed match of
`\s+\S*$`. -/
lemma dropLastPartialWord_decomp (l : List Char) (h : l.any isWsChar = true) :
    ∃ a b, l = dropLastPartialWord l ++ a ++ b ∧ a ≠ [] ∧
      (∀ x ∈ a, isWsChar x = true) ∧ (∀ x ∈ b, isWsChar x = false) := by
  have hrev : l.reverse.any isWsChar = true := by simpa using h
  set r := l.reverse with hr
  set r1 := r.dropWhile (fun c => !isWsChar c) with hr1
  have hsplit : r.takeWhile (fun c => !isWsChar c) ++ r1 = r :=
    List.takeWhile_append_dropWhile _ _
  have h1ne : r1 ≠ [] := by
    intro hnil
    rw [hnil, List.append_nil] at hsplit
    obtain ⟨x, hx, hpx⟩ := List.any_eq_true.mp hrev
    have hmem : x ∈ r.takeWhile (fun c => !isWsChar c) := by rw [hsplit]; exact hx
    have := List.mem_takeWhile_imp hmem
    simp [hpx] at this
  obtain ⟨h0, t0, he0, hq0⟩ := dropWhile_ne_nil_head h1ne
  have he0' : r1 = h0 :: t0 := by rw [hr1]; exact he0
  have hws0 : isWsChar h0 = true := by simpa using hq0
  set a0 := r1.takeWhile isWsChar with ha0
  set r2 := r1.dropWhile isWsChar with hr2
  have hsplit1 : a0 ++ r2 = r1 := List.takeWhile_append_dropWhile _ _
  have ha0ne : a0 ≠ [] := by
    rw [ha0, he0']
    simp [List.takeWhile_cons, hws0]
  have hdef : dropLastPartialWord l = r2.reverse := by
    rw [dropLastPartialWord, if_pos h]
  have hrdecomp : r.takeWhile (fun c => !isWsChar c) ++ (a0 ++ r2) = r := by
    rw [hsplit1]; exact hsplit
  refine ⟨a0.reverse, (r.takeWhile (fun c => !isWsChar c)).reverse, ?_, ?_, ?_, ?_⟩
  · rw [hdef]
    have hl : l = r.reverse := by rw [hr, List.reverse_reverse]
    rw [hl]
    conv_lhs => rw [← hrdecomp]
    simp
  · simpa using ha0ne
  · intro x hx
    have hx' : x ∈ a0 := by simpa using hx
    exact List.mem_takeWhile_imp hx'
  · intro x hx
    have hx' : x ∈ r.takeWhile (fun c => !isWsChar c) := by simpa using hx
    have := List.mem_takeWhile_imp hx'
    simpa using this

/-- Taking the first `n` characters yields a prefix of the list. -/
lemma take_isPrefix (n : Nat) (l : List Char) : l.take n <+: l :=
  ⟨l.drop n, List.take_append_drop n l⟩

/-- The kept text is a prefix of the original. -/
lemma dropLastPartialWord_isPrefix (l : List Char) : dropLastPartialWord l <+: l := by
  by_cases hws : l.any isWsChar
  · obtain ⟨a, b, hdecomp, _, _, _⟩ := dropLastPartialWord_decomp l hws
    exact ⟨a ++ b, by rw [← List.append_assoc, ← hdecomp]⟩
  · rw [dropLastPartialWord_eq_self (by simpa using hws)]

/-- In live mode with a missing or empty key, `webSearch` takes the
missing-credential branch. -/
lemma webSearch_noKey (mode : String) (apiKey : Option String)
    (provider : Except HttpError ProviderResponse) (query : String)
    (hmode : mode ≠ "mock") (hkey : apiKey = none ∨ apiKey = some "") :
    webSearch mode apiKey provider query =
      { query := query, totalResults := 0, results := [],
        summary := some "Search API key missing." } := by
  rw [webSearch.eq_def, if_neg hmode, if_pos hkey]

/-- In live mode with a key, a successful provider call takes the `try`
branch. -/
lemma webSearch_ok (mode : String) (apiKey : Option String)
    (resp : ProviderResponse) (query : String)
    (hmode : mode ≠ "mock") (hkey : ¬(apiKey = none ∨ apiKey = some "")) :
    webSearch mode apiKey (Except.ok resp) query = webSearchSuccess resp query := by
  rw [webSearch.eq_def, if_neg hmode, if_neg hkey]

/-- In live mode with a key, a failed provider call takes the `catch`
branch. -/
lemma webSearch_err (mode : String) (apiKey : Option String)
    (err : HttpError) (query : String)
    (hmode : mode ≠ "mock") (hkey : ¬(apiKey = none ∨ apiKey = some "")) :
    webSearch mode apiKey (Except.error err) query = webSearchFailure err query := by
  rw [webSearch.eq_def, if_neg hmode, if_neg hkey]

/-- Every invalid body (absent, non-string, or blank after trimming)
takes the validation-rejection path. -/
lemma handleChat_invalid (body : BodyQuery) (gemini : Nat → Except String String)
    (search : String → SearchResponse) (duration : Nat)
    (h : body = BodyQuery.missing ∨ body = BodyQuery.nonString ∨
         ∃ s, body = BodyQuery.str s ∧ jsTrim s = "") :
    handleChat body gemini search duration = validationFailure := by
  rcases h with h | h | ⟨s, hs, hq⟩
  · rw [h]; rfl
  · rw [h]; rfl
  · rw [hs]
    simp [handleChat, hq]

/-- Evaluation of the handler on a valid query when the decision call
rejects. -/
lemma handleChat_eval_err0 (q : String) (gemini : Nat → Except String String)
    (search : String → SearchResponse) (duration : Nat) (msg : String)
    (hq : jsTrim q ≠ "") (hg0 : gemini 0 = Except.error msg) :
    handleChat (BodyQuery.str q) gemini search duration =
      { events := [StreamEvent.reasoning ("Received: \"" ++ jsTrim q ++ "\""),
                   StreamEvent.reasoning "Deciding if tool needed...",
                   StreamEvent.error ("Agent error: " ++ msg)],
        status := none, ended := 1, geminiCalls := 1, searchCalls := 0 } := by
  simp only [handleChat, if_neg hq, hg0]

/-- Evaluation of the handler on a valid query when the decision call
succeeds and the synthesis call rejects. -/
lemma handleChat_eval_err1 (q : String) (gemini : Nat → Except String String)
    (search : String → SearchResponse) (duration : Nat) (raw msg : String)
    (hq : jsTrim q ≠ "") (hg0 : gemini 0 = Except.ok raw)
    (hg1 : gemini 1 = Except.error msg) :
    handleChat (BodyQuery.str q) gemini search duration =
      { events := [StreamEvent.reasoning ("Received: \"" ++ jsTrim q ++ "\""),
                   StreamEvent.reasoning "Deciding if tool needed...",
                   StreamEvent.reasoning
                     (if parseDecision raw then "Tool call required for fresh data."
                      else "Internal knowledge sufficient.")] ++
                  (if parseDecision raw then
                    [StreamEvent.reasoning "Searching the web…",
                     StreamEvent.tool_call "web_search" (jsTrim q) (search (jsTrim q))]
                   else []) ++
                  [StreamEvent.reasoning "Refining answer...",
                   StreamEvent.error ("Agent error: " ++ msg)],
        status := none, ended := 1, geminiCalls := 2,
        searchCalls := if parseDecision raw then 1 else 0 } := by
  simp only [handleChat, if_neg hq, hg0, hg1]

/-- Evaluation of the handler on a valid query when both completion
calls succeed. -/
lemma handleChat_eval_ok (q : String) (gemini : Nat → Except String String)
    (search : String → SearchResponse) (duration : Nat) (raw answer : String)
    (hq : jsTrim q ≠ "") (hg0 : gemini 0 = Except.ok raw)
    (hg1 : gemini 1 = Except.ok answer) :
    handleChat (BodyQuery.str q) gemini search duration =
      { events := [StreamEvent.reasoning ("Received: \"" ++ jsTrim q ++ "\""),
                   StreamEvent.reasoning "Deciding if tool needed...",
                   StreamEvent.reasoning
                     (if parseDecision raw then "Tool call required for fresh data."
                      else "Internal knowledge sufficient.")] ++
                  (if parseDecision raw then
                    [StreamEvent.reasoning "Searching the web…",
                     StreamEvent.tool_call "web_search" (jsTrim q) (search (jsTrim q))]
                   else []) ++
                  [StreamEvent.reasoning "Refining answer...",
                   StreamEvent.response
                     (if answer = "" then "(no answer generated)" else answer),
                   StreamEvent.reasoning ("Completed in " ++ toString duration ++ "ms"),
                   StreamEvent.done],
        status := none, ended := 1, geminiCalls := 2,
        searchCalls := if parseDecision raw then 1 else 0 } := by
  simp only [handleChat, if_neg hq, hg0, hg1]

end AgenticChat

namespace AgenticChat

/-- Claim C3: For every raw decision string `s`, `parseDecision s` is true
iff the trimmed, lowercased form of `s` equals `"true"` or contains
`"yes"` as a substring; in particular `"  True "` yields true, `"false"`
yields false, and `""` yields false. -/
theorem parseDecision_characterization :
    (∀ s : String, parseDecision s = true ↔
      (jsToLower (jsTrim s) = "true" ∨ "yes".data <:+: (jsToLower (jsTrim s)).data)) ∧
    parseDecision "  True " = true ∧
    parseDecision "false" = false ∧
    parseDecision "" = false := by
  refine ⟨fun s => ?_, by decide, by decide, by decide⟩
  simp [parseDecision]

/-- Counterexample to claim C4: `parseDecision "No, I don\x27t think so"` does
not return true: the normalized string is neither `"true"` nor contains
`"yes"`. -/
theorem parseDecision_no_counterexample :
    ¬ parseDecision "No, I don\x27t think so" = true := by decide

/-- Amended claim C4: `parseDecision` applied to the input string
`"No, I don\x27t think so"` returns false. -/
theorem parseDecision_no :
    parseDecision "No, I don\x27t think so" = false := by decide

/-- Claim C10: For every string `s` and cap `c`: if `s` is at most `c` long
it is returned unchanged; otherwise the result is a prefix of `s`
followed by `"..."` with total length at most `c + 3`; and when the first
`c` characters contain no whitespace the returned prefix is exactly those
first `c` characters. -/
theorem truncateSnippet_cases :
    ∀ (l : List Char) (c : Nat),
      (l.length ≤ c → truncateSnippet l c = l) ∧
      (c < l.length → ∃ p, truncateSnippet l c = p ++ ellipsis ∧ p <+: l ∧
        (truncateSnippet l c).length ≤ c + 3) ∧
      (c < l.length → (l.take c).any isWsChar = false →
        truncateSnippet l c = l.take c ++ ellipsis) := by
  intro l c
  have htake : (l.take c).length ≤ c := by
    rw [List.length_take]; exact Nat.min_le_left _ _
  refine ⟨fun h => by simp [truncateSnippet, h], fun h => ?_, fun h hws => ?_⟩
  · have hnle : ¬ l.length ≤ c := by omega
    refine ⟨dropLastPartialWord (l.take c), by simp [truncateSnippet, hnle], ?_, ?_⟩
    · exact (dropLastPartialWord_isPrefix _).trans (take_isPrefix c l)
    · have h1 : (dropLastPartialWord (l.take c)).length ≤ c :=
        le_trans (dropLastPartialWord_isPrefix (l.take c)).length_le htake
      simp only [truncateSnippet, if_neg hnle, List.length_append, ellipsis,
        List.length_cons, List.length_nil]
      omega
  · have hnle : ¬ l.length ≤ c := by omega
    simp [truncateSnippet, hnle, dropLastPartialWord_eq_self hws]

/-- Witness for C10 at a concrete input. -/
theorem truncateSnippet_cases_witness :
    truncateSnippet "abcde".data 4 = "abcde".data.take 4 ++ ellipsis :=
  (truncateSnippet_cases "abcde".data 4).2.2 (by decide) (by decide)

/-- Counterexample to claim C5: The input of 301 copies of `'a'` is longer
than the 300-character cap, yet the truncated snippet has length 303,
exceeding the cap (and the single 301-character word is split). -/
theorem truncateSnippet_cap_counterexample :
    300 < (List.replicate 301 'a').length ∧
    300 < (truncateSnippet (List.replicate 301 'a') 300).length := by
  have htake : (List.replicate 301 'a').take 300 = List.replicate 300 'a' := by
    rw [List.take_replicate]
    norm_num
  have hws : ((List.replicate 301 'a').take 300).any isWsChar = false := by
    rw [htake, List.any_eq_false]
    intro x hx
    rw [List.eq_of_mem_replicate hx]
    decide
  have hlen : (List.replicate 301 'a').length = 301 := List.length_replicate 301 'a'
  have hres : truncateSnippet (List.replicate 301 'a') 300 =
      List.replicate 300 'a' ++ ellipsis := by
    rw [truncateSnippet, if_neg (by rw [hlen]; omega), dropLastPartialWord_eq_self hws, htake]
  refine ⟨by rw [hlen]; omega, ?_⟩
  rw [hres, List.length_append, List.length_replicate]
  decide

/-- Amended claim C5: For every input longer than the cap `c`, the output
is the kept prefix followed by the ellipsis marker, the kept prefix is a
prefix of the input of length at most `c` (so the total length is at most
`c + 3`, which can exceed `c` itself); when the first `c` characters
contain whitespace the kept prefix ends exactly at a whitespace boundary
(the input continues with a whitespace run there, so no word is split),
and when they contain no whitespace the kept prefix is the whole first
`c` characters, splitting the word. -/
theorem truncateSnippet_word_boundary :
    ∀ (l : List Char) (c : Nat), c < l.length →
      truncateSnippet l c = dropLastPartialWord (l.take c) ++ ellipsis ∧
      dropLastPartialWord (l.take c) <+: l ∧
      (truncateSnippet l c).length ≤ c + 3 ∧
      ((l.take c).any isWsChar = true →
        ∃ a b, l.take c = dropLastPartialWord (l.take c) ++ a ++ b ∧ a ≠ [] ∧
          (∀ x ∈ a, isWsChar x = true) ∧ (∀ x ∈ b, isWsChar x = false)) ∧
      ((l.take c).any isWsChar = false →
        dropLastPartialWord (l.take c) = l.take c) := by
  intro l c h
  have hnle : ¬ l.length ≤ c := by omega
  have htake : (l.take c).length ≤ c := by
    rw [List.length_take]; exact Nat.min_le_left _ _
  refine ⟨by simp [truncateSnippet, hnle], ?_, ?_, ?_, ?_⟩
  · exact (dropLastPartialWord_isPrefix _).trans (take_isPrefix c l)
  · have h1 : (dropLastPartialWord (l.take c)).length ≤ c :=
      le_trans (dropLastPartialWord_isPrefix (l.take c)).length_le htake
    simp only [truncateSnippet, if_neg hnle, List.length_append, ellipsis,
      List.length_cons, List.length_nil]
    omega
  · exact fun hws => dropLastPartialWord_decomp (l.take c) hws
  · exact fun hws => dropLastPartialWord_eq_self hws

/-- Witness for the amended theorem of C5 at a concrete input. -/
theorem truncateSnippet_word_boundary_witness :
    truncateSnippet "ab cd".data 4 = dropLastPartialWord ("ab cd".data.take 4) ++ ellipsis :=
  (truncateSnippet_word_boundary "ab cd".data 4 (by decide)).1

/-- Claim C6: With the default budget of 3 attempts: if the operation fails
transiently `k < 3` times then succeeds, `withRetry` returns the success
value after exactly the backoff delays `1000 * 2 ^ i` for `i < k`, having
invoked the operation `k + 1` times; if every attempt fails transiently,
it exhausts the budget and propagates the last error; and a
non-transient failure propagates at once, with no delay for that attempt
and no further invocation. -/
theorem withRetry_spec :
    ∀ (α : Type) (fn : Nat → Except RetryErr α),
      (∀ (k : Nat) (v : α), k < 3 →
        (∀ j, j < k → ∃ e, fn j = Except.error e ∧ isTransient e = true) →
        fn k = Except.ok v →
        withRetry fn 3 = (Except.ok v, (List.range k).map (fun i => 1000 * 2 ^ i), k + 1)) ∧
      ((∀ j, j < 3 → ∃ e, fn j = Except.error e ∧ isTransient e = true) →
        ∃ e, fn 2 = Except.error e ∧
          withRetry fn 3 = (Except.error (some e), [1000, 2000, 4000], 3)) ∧
      (∀ (k : Nat) (e : RetryErr), k < 3 →
        (∀ j, j < k → ∃ e2, fn j = Except.error e2 ∧ isTransient e2 = true) →
        fn k = Except.error e → isTransient e = false →
        withRetry fn 3 =
          (Except.error (some e), (List.range k).map (fun i => 1000 * 2 ^ i), k + 1)) := by
  intro α fn
  refine ⟨?_, ?_, ?_⟩
  · intro k v hk hprev hok
    interval_cases k
    · simp [withRetry, withRetryGo, hok]
    · obtain ⟨e0, he0, ht0⟩ := hprev 0 (by omega)
      simp [withRetry, withRetryGo, he0, ht0, hok, List.range_succ]
    · obtain ⟨e0, he0, ht0⟩ := hprev 0 (by omega)
      obtain ⟨e1, he1, ht1⟩ := hprev 1 (by omega)
      simp [withRetry, withRetryGo, he0, ht0, he1, ht1, hok, List.range_succ]
  · intro hprev
    obtain ⟨e0, he0, ht0⟩ := hprev 0 (by omega)
    obtain ⟨e1, he1, ht1⟩ := hprev 1 (by omega)
    obtain ⟨e2, he2, ht2⟩ := hprev 2 (by omega)
    exact ⟨e2, he2, by simp [withRetry, withRetryGo, he0, ht0, he1, ht1, he2, ht2]⟩
  · intro k e hk hprev herr ht
    interval_cases k
    · simp [withRetry, withRetryGo, herr, ht]
    · obtain ⟨e0, he0, ht0⟩ := hprev 0 (by omega)
      simp [withRetry, withRetryGo, he0, ht0, herr, ht, List.range_succ]
    · obtain ⟨e0, he0, ht0⟩ := hprev 0 (by omega)
      obtain ⟨e1, he1, ht1⟩ := hprev 1 (by omega)
      simp [withRetry, withRetryGo, he0, ht0, he1, ht1, herr, ht, List.range_succ]

/-- Witness for C6: one transient 503 failure, then success on the
second attempt, with one 1000 ms delay. -/
theorem withRetry_spec_witness :
    withRetry retryWitnessFn 3 = (Except.ok 7, [1000], 2) := by
  have h := (withRetry_spec Nat retryWitnessFn).1 1 7 (by omega)
    (fun j hj => by
      interval_cases j
      exact ⟨{ status := some 503, code := none }, rfl, rfl⟩)
    rfl
  simpa using h

/-- Claim C7: `webSearch` never propagates a failure: in live mode with no
configured credential (absent or empty key) it returns the empty
`SearchResponse` whose non-empty summary explains the missing key, and on
a provider failure it returns the empty `SearchResponse` whose summary
describes the failure. (The embedding makes non-propagation structural:
`webSearch` is a total function into `SearchResponse`.) -/
theorem webSearch_degrades_gracefully :
    ∀ (mode : String) (apiKey : Option String)
      (provider : Except HttpError ProviderResponse) (query : String),
      (mode ≠ "mock" → (apiKey = none ∨ apiKey = some "") →
        webSearch mode apiKey provider query =
          { query := query, totalResults := 0, results := [],
            summary := some "Search API key missing." } ∧
        "Search API key missing." ≠ "") ∧
      (∀ err, mode ≠ "mock" → ¬(apiKey = none ∨ apiKey = some "") →
        provider = Except.error err →
        webSearch mode apiKey provider query =
          { query := query, totalResults := 0, results := [],
            summary := some ("Search failed: " ++ jsOrOS err.responseError err.message) }) := by
  intro mode apiKey provider query
  constructor
  · intro hmode hkey
    exact ⟨webSearch_noKey mode apiKey provider query hmode hkey, by decide⟩
  · intro err hmode hkey hprov
    rw [hprov]
    exact webSearch_err mode apiKey err query hmode hkey

/-- Witness for C7: live mode without a key, and live mode with a key
but a failing provider call. -/
theorem webSearch_degrades_gracefully_witness :
    webSearch "live" none (Except.error { responseError := none, message := "boom" }) "q" =
      { query := "q", totalResults := 0, results := [],
        summary := some "Search API key missing." } ∧
    webSearch "live" (some "k") (Except.error { responseError := none, message := "boom" }) "q" =
      { query := "q", totalResults := 0, results := [],
        summary := some "Search failed: boom" } := by
  constructor
  · exact ((webSearch_degrades_gracefully "live" none
      (Except.error { responseError := none, message := "boom" }) "q").1
      (by decide) (Or.inl rfl)).1
  · exact ((webSearch_degrades_gracefully "live" (some "k")
      (Except.error { responseError := none, message := "boom" }) "q").2
      { responseError := none, message := "boom" } (by decide) (by decide) rfl).trans
      (by decide)

/-- Counterexample to claim C9: A successful live-mode provider response whose
first two results share the source `a.com`: the synthesized summary names
`a.com, a.com, b.com` — the sources of the first three results — which
differs from the first three distinct sources `a.com, b.com` the claim
requires. -/
theorem webSearch_summary_counterexample :
    (webSearch "live" (some "k") (Except.ok providerDup) "q").summary =
      some "Found 3 results. Top sources: a.com, a.com, b.com." ∧
    summaryDistinctSpec
        (webSearch "live" (some "k") (Except.ok providerDup) "q").totalResults
        (webSearch "live" (some "k") (Except.ok providerDup) "q").results =
      "Found 3 results. Top sources: a.com, b.com." ∧
    (webSearch "live" (some "k") (Except.ok providerDup) "q").summary ≠
      some (summaryDistinctSpec
        (webSearch "live" (some "k") (Except.ok providerDup) "q").totalResults
        (webSearch "live" (some "k") (Except.ok providerDup) "q").results) := by
  refine ⟨by decide, by decide, by decide⟩

/-- Amended claim C9: In live search mode, for every successful provider
response with at least one mapped result, the synthesized summary names
the total result count and the sources of the first three results in
order, duplicates included. -/
theorem webSearch_summary_format :
    ∀ (mode k query : String) (resp : ProviderResponse),
      mode ≠ "mock" → k ≠ "" →
      ((resp.organic_results.getD []).take 10).map mapRawResult ≠ [] →
      (webSearch mode (some k) (Except.ok resp) query).summary =
        some ("Found " ++ toLocaleString (resp.total_results.getD 0) ++
          " results. Top sources: " ++
          String.intercalate ", "
            (((((resp.organic_results.getD []).take 10).map mapRawResult).take 3).map
              (fun r => r.source)) ++ ".") := by
  intro mode k query resp hmode hk hne
  have hkey : ¬((some k : Option String) = none ∨ (some k : Option String) = some "") := by
    simp [hk]
  have hpos : (((resp.organic_results.getD []).take 10).map mapRawResult).length > 0 :=
    List.length_pos.mpr hne
  rw [webSearch_ok mode (some k) resp query hmode hkey, webSearchSuccess]
  simp only [if_pos hpos]

/-- Witness for the amended theorem of C9 at the concrete duplicate-source
provider response. -/
theorem webSearch_summary_format_witness :
    (webSearch "live" (some "k") (Except.ok providerDup) "q2").summary =
      some ("Found " ++ toLocaleString (providerDup.total_results.getD 0) ++
        " results. Top sources: " ++
        String.intercalate ", "
          (((((providerDup.organic_results.getD []).take 10).map mapRawResult).take 3).map
            (fun r => r.source)) ++ ".") :=
  webSearch_summary_format "live" "k" "q2" providerDup (by decide) (by decide) (by decide)

/-- Claim C1: For every request: at most one `tool_call` event is emitted —
exactly one when the decision parses true, none when it parses false —
and the response stream is ended exactly once on every exit path
(success, validation rejection, or error). -/
theorem chat_tool_call_invariant :
    ∀ (body : BodyQuery) (gemini : Nat → Except String String)
      (search : String → SearchResponse) (duration : Nat),
      countToolCalls (handleChat body gemini search duration).events ≤ 1 ∧
      (handleChat body gemini search duration).ended = 1 ∧
      (∀ q raw, body = BodyQuery.str q → jsTrim q ≠ "" → gemini 0 = Except.ok raw →
        countToolCalls (handleChat body gemini search duration).events =
          (if parseDecision raw then 1 else 0)) := by
  intro body gemini search duration
  cases body with
  | missing =>
    rw [handleChat_invalid _ gemini search duration (Or.inl rfl)]
    refine ⟨by simp [validationFailure, countToolCalls, isToolCallEv], rfl, ?_⟩
    intro q raw hbody hq hg
    cases hbody
  | nonString =>
    rw [handleChat_invalid _ gemini search duration (Or.inr (Or.inl rfl))]
    refine ⟨by simp [validationFailure, countToolCalls, isToolCallEv], rfl, ?_⟩
    intro q raw hbody hq hg
    cases hbody
  | str q =>
    by_cases hq : jsTrim q = ""
    · rw [handleChat_invalid _ gemini search duration (Or.inr (Or.inr ⟨q, rfl, hq⟩))]
      refine ⟨by simp [validationFailure, countToolCalls, isToolCallEv], rfl, ?_⟩
      intro q2 raw hbody hq2 hg
      injection hbody with h
      subst h
      exact absurd hq hq2
    · cases hg0 : gemini 0 with
      | error msg =>
        rw [handleChat_eval_err0 q gemini search duration msg hq hg0]
        refine ⟨by simp [countToolCalls, isToolCallEv], rfl, ?_⟩
        intro q2 raw hbody hq2 hgok
        cases hgok
      | ok raw =>
        cases hg1 : gemini 1 with
        | error msg =>
          rw [handleChat_eval_err1 q gemini search duration raw msg hq hg0 hg1]
          refine ⟨?_, rfl, ?_⟩
          · by_cases hd : parseDecision raw <;>
              simp [countToolCalls, isToolCallEv, hd, List.filter_append]
          · intro q2 raw2 hbody hq2 hgok
            injection hgok with h
            subst h
            by_cases hd : parseDecision raw <;>
              simp [countToolCalls, isToolCallEv, hd, List.filter_append]
        | ok answer =>
          rw [handleChat_eval_ok q gemini search duration raw answer hq hg0 hg1]
          refine ⟨?_, rfl, ?_⟩
          · by_cases hd : parseDecision raw <;>
              simp [countToolCalls, isToolCallEv, hd, List.filter_append]
          · intro q2 raw2 hbody hq2 hgok
            injection hgok with h
            subst h
            by_cases hd : parseDecision raw <;>
              simp [countToolCalls, isToolCallEv, hd, List.filter_append]

/-- Witness for C1: a valid query whose decision parses true yields
exactly one `tool_call` event. -/
theorem chat_tool_call_invariant_witness :
    countToolCalls (handleChat (BodyQuery.str "hi") geminiScenarioTrue mockSearch 5).events =
      (if parseDecision "true" then 1 else 0) :=
  (chat_tool_call_invariant (BodyQuery.str "hi") geminiScenarioTrue mockSearch 5).2.2
    "hi" "true" rfl (by decide) rfl

/-- Counterexample to claim C2: The run of scenario A (valid query
`"What is 2+2?"`, decision `"false"`) emits seven events, not the six the
claim lists: a reasoning event `"Deciding if tool needed..."` is emitted
between the acknowledgement and the decision outcome, so the event
sequence does not have the claimed six-event shape (though it has no
`tool_call` event). -/
theorem chat_scenarioA_counterexample :
    parseDecision "false" = false ∧
    (handleChat (BodyQuery.str "What is 2+2?") geminiScenarioA mockSearch 5).events.length = 7 ∧
    scenarioAClaimShape
      (handleChat (BodyQuery.str "What is 2+2?") geminiScenarioA mockSearch 5).events = false := by
  refine ⟨by decide, by decide, by decide⟩

/-- Amended claim C2: For every request with a valid query whose decision
phase yields false and whose synthesis call returns a non-empty answer,
the emitted sequence is exactly seven events: reasoning (acknowledging
the query), reasoning ("Deciding if tool needed..."), reasoning (decision
outcome "Internal knowledge sufficient."), reasoning ("Refining
answer..."), response, reasoning (elapsed time), done — with no
`tool_call` event and no other events in between. -/
theorem chat_scenarioA_events :
    ∀ (q : String) (gemini : Nat → Except String String)
      (search : String → SearchResponse) (duration : Nat) (raw answer : String),
      jsTrim q ≠ "" → gemini 0 = Except.ok raw → parseDecision raw = false →
      gemini 1 = Except.ok answer → answer ≠ "" →
      (handleChat (BodyQuery.str q) gemini search duration).events =
        [StreamEvent.reasoning ("Received: \"" ++ jsTrim q ++ "\""),
         StreamEvent.reasoning "Deciding if tool needed...",
         StreamEvent.reasoning "Internal knowledge sufficient.",
         StreamEvent.reasoning "Refining answer...",
         StreamEvent.response answer,
         StreamEvent.reasoning ("Completed in " ++ toString duration ++ "ms"),
         StreamEvent.done] ∧
      countToolCalls (handleChat (BodyQuery.str q) gemini search duration).events = 0 := by
  intro q gemini search duration raw answer hq hg0 hd hg1 hans
  rw [handleChat_eval_ok q gemini search duration raw answer hq hg0 hg1]
  constructor
  · simp [hd, hans]
  · simp [countToolCalls, isToolCallEv, hd, List.filter_append]

/-- Witness for the amended theorem of C2 at the concrete scenario-A run. -/
theorem chat_scenarioA_events_witness :
    (handleChat (BodyQuery.str "What is 2+2?") geminiScenarioA mockSearch 5).events =
      [StreamEvent.reasoning ("Received: \"" ++ jsTrim "What is 2+2?" ++ "\""),
       StreamEvent.reasoning "Deciding if tool needed...",
       StreamEvent.reasoning "Internal knowledge sufficient.",
       StreamEvent.reasoning "Refining answer...",
       StreamEvent.response "2 + 2 = 4.",
       StreamEvent.reasoning ("Completed in " ++ toString 5 ++ "ms"),
       StreamEvent.done] ∧
    countToolCalls
      (handleChat (BodyQuery.str "What is 2+2?") geminiScenarioA mockSearch 5).events = 0 :=
  chat_scenarioA_events "What is 2+2?" geminiScenarioA mockSearch 5 "false" "2 + 2 = 4."
    (by decide) rfl (by decide) rfl (by decide)

/-- Claim C8: For every blank, whitespace-only, or missing/non-string
query, the pipeline emits exactly one validation `error` event, sets the
400 status, ends the stream, and invokes neither the completion client
nor the search client. -/
theorem chat_validation_rejects :
    ∀ (body : BodyQuery) (gemini : Nat → Except String String)
      (search : String → SearchResponse) (duration : Nat),
      (body = BodyQuery.missing ∨ body = BodyQuery.nonString ∨
        ∃ s, body = BodyQuery.str s ∧ jsTrim s = "") →
      (handleChat body gemini search duration).events =
        [StreamEvent.error "Valid \x27query\x27 string required"] ∧
      (handleChat body gemini search duration).status = some 400 ∧
      (handleChat body gemini search duration).ended = 1 ∧
      (handleChat body gemini search duration).geminiCalls = 0 ∧
      (handleChat body gemini search duration).searchCalls = 0 := by
  intro body gemini search duration h
  rw [handleChat_invalid body gemini search duration h]
  exact ⟨rfl, rfl, rfl, rfl, rfl⟩

/-- Witness for C8 at a whitespace-only query. -/
theorem chat_validation_rejects_witness :
    (handleChat (BodyQuery.str "   ") geminiScenarioA mockSearch 0).events =
      [StreamEvent.error "Valid \x27query\x27 string required"] :=
  (chat_validation_rejects (BodyQuery.str "   ") geminiScenarioA mockSearch 0
    (Or.inr (Or.inr ⟨"   ", rfl, by decide⟩))).1

end AgenticChat
